import Mathlib

/-!
Verification of the spec of this repository fragment: a wheel-pan
interaction-tool test suite and a linear color mapper example script.
The plot/tool data model is embedded shallowly; axis bounds are rationals.
-/

namespace Bokeh

/-- A one-dimensional axis range `Range1d(start, end)`. -/
structure Range1d where
  start : ℚ
  end_ : ℚ
  deriving Repr, DecidableEq

/-- The dimension a `WheelPanTool` is configured to act on. -/
inductive Dimension where
  | width
  | height
  deriving Repr, DecidableEq

/-- A range-update notification, as observed by the recording callback of
`test_xpan_ranges_update` / `test_ypan_ranges_update`: an event name and the
new `(x0, x1, y0, y1)` bounds. -/
structure RangesUpdateEvent where
  event_name : String
  x0 : ℚ
  x1 : ℚ
  y0 : ℚ
  y1 : ℚ
  deriving Repr, DecidableEq

/-- The state the tests observe: the wheel-pan tool's `active` flag, its
configured dimension, and the plot's two axis ranges. -/
structure PlotState where
  active : Bool
  dimension : Dimension
  x_range : Range1d
  y_range : Range1d
  deriving Repr, DecidableEq

/-- The plot built by `_make_plot(dimension)`:
`x_range=Range1d(0, 1)`, `y_range=Range1d(0, 1)`, one `WheelPanTool`
with the given dimension, initially inactive. -/
def make_plot (dim : Dimension) : PlotState :=
  { active := false, dimension := dim,
    x_range := ⟨0, 1⟩, y_range := ⟨0, 1⟩ }

/-- Clicking the toolbar button toggles the tool's `active` flag
(spec §4.2: "Transition: click toggles `active`"). -/
def click (s : PlotState) : PlotState :=
  { s with active := !s.active }

/-- `n` successive clicks on the toolbar button. -/
def clickN : ℕ → PlotState → PlotState
  | 0, s => s
  | n + 1, s => clickN n (click s)

/-- Whether the toolbar button carries the `"active"` CSS class; the tests
read it via `button.get_attribute('class')` and it reflects the flag. -/
def buttonHasActiveClass (s : PlotState) : Bool :=
  s.active

/-- Modelled from the spec: the `WheelPanTool` implementation (BokehJS) is
not part of this repository; only its integration tests are. Per spec §4.2,
while `active` a scroll of magnitude `m` translates the configured axis's
`(start, end)` by an amount monotonic in `m`, the orthogonal axis is
untouched, and each range mutation emits one range-update notification
carrying the event name and the new `(x0, x1, y0, y1)` bounds; while
inactive a scroll changes nothing and emits nothing. The shift here is
`delta / 600` of the current span, a concrete monotonic choice consistent
with every assertion of `test_wheel_pan_tool.py`. For the height dimension
the data-space shift has the opposite sign, because the vertical screen
axis grows downward: the repository's own tests pin this
(`test_ywheel_pan` asserts that `scroll(-200)` leaves `yrstart > 0` and
`yrend > 1`, and `scroll(400)` then leaves them `< 0` and `< 1`). -/
def scroll (s : PlotState) (delta : ℚ) : PlotState × List RangesUpdateEvent :=
  if s.active then
    let s' :=
      match s.dimension with
      | .width =>
        let shift := delta / 600 * (s.x_range.end_ - s.x_range.start)
        { s with x_range := ⟨s.x_range.start + shift, s.x_range.end_ + shift⟩ }
      | .height =>
        let shift := -(delta / 600) * (s.y_range.end_ - s.y_range.start)
        { s with y_range := ⟨s.y_range.start + shift, s.y_range.end_ + shift⟩ }
    (s', [{ event_name := "rangesupdate",
            x0 := s'.x_range.start, x1 := s'.x_range.end_,
            y0 := s'.y_range.start, y1 := s'.y_range.end_ }])
  else
    (s, [])

/-- The shift a scroll applies to the x-range's start. -/
def xshift (s : PlotState) (d : ℚ) : ℚ :=
  (scroll s d).1.x_range.start - s.x_range.start

/-- The shift a scroll applies to the y-range's start. -/
def yshift (s : PlotState) (d : ℚ) : ℚ :=
  (scroll s d).1.y_range.start - s.y_range.start

/-- Ranges swapped and the tool dimension flipped; used to compare the
height-dimension scenarios with the width-dimension ones. -/
def swapXY (s : PlotState) : PlotState :=
  { active := s.active,
    dimension := match s.dimension with | .width => .height | .height => .width,
    x_range := s.y_range,
    y_range := s.x_range }

theorem clickN_active (n : ℕ) (s : PlotState) :
    (clickN n s).active = xor (decide (n % 2 = 1)) s.active := by
  induction n generalizing s with
  | zero => simp [clickN]
  | succ n ih =>
    have h2 : (n + 1) % 2 = 1 ↔ n % 2 = 0 := by omega
    rcases Nat.mod_two_eq_zero_or_one n with h | h <;>
      simp [clickN, ih, click, h, h2, Nat.mod_two_ne_one]

theorem clickN_x_range (n : ℕ) (s : PlotState) :
    (clickN n s).x_range = s.x_range := by
  induction n generalizing s with
  | zero => rfl
  | succ n ih => simp [clickN, ih, click]

theorem clickN_y_range (n : ℕ) (s : PlotState) :
    (clickN n s).y_range = s.y_range := by
  induction n generalizing s with
  | zero => rfl
  | succ n ih => simp [clickN, ih, click]

theorem xshift_eq (s : PlotState) (d : ℚ) (hact : s.active = true)
    (hdim : s.dimension = .width) :
    xshift s d = d / 600 * (s.x_range.end_ - s.x_range.start) := by
  simp [xshift, scroll, hact, hdim]

theorem yshift_eq (s : PlotState) (d : ℚ) (hact : s.active = true)
    (hdim : s.dimension = .height) :
    yshift s d = -(d / 600) * (s.y_range.end_ - s.y_range.start) := by
  simp [yshift, scroll, hact, hdim]

/-- C1: while the wheel-pan tool is inactive (clicked an even number of
times, possibly zero), a scroll of any magnitude leaves both axis ranges of
the `_make_plot` plot exactly at `(0, 1)`, for either tool dimension. -/
theorem C1_inactive_scroll_no_change (dim : Dimension) (n : ℕ) (delta : ℚ)
    (h : n % 2 = 0) :
    (scroll (clickN n (make_plot dim)) delta).1.x_range = ⟨0, 1⟩ ∧
    (scroll (clickN n (make_plot dim)) delta).1.y_range = ⟨0, 1⟩ := by
  have hact : (clickN n (make_plot dim)).active = false := by
    rw [clickN_active]
    simp [make_plot]
    omega
  simp only [scroll, hact, Bool.false_eq_true, if_false]
  exact ⟨by rw [clickN_x_range]; rfl, by rw [clickN_y_range]; rfl⟩

/-- C1 witness: never clicked, `scroll(-200)`, both tool dimensions. -/
theorem C1_witness :
    (0 : ℕ) % 2 = 0 ∧
    ((scroll (clickN 0 (make_plot .width)) (-200)).1.x_range = ⟨0, 1⟩ ∧
     (scroll (clickN 0 (make_plot .width)) (-200)).1.y_range = ⟨0, 1⟩) ∧
    ((scroll (clickN 0 (make_plot .height)) (-200)).1.x_range = ⟨0, 1⟩ ∧
     (scroll (clickN 0 (make_plot .height)) (-200)).1.y_range = ⟨0, 1⟩) :=
  ⟨rfl, C1_inactive_scroll_no_change .width 0 (-200) rfl,
   C1_inactive_scroll_no_change .height 0 (-200) rfl⟩

/-- C2 counterexample: with the height-dimension tool active, the negative
scroll `scroll(-200)` shifts the y-range start by `+1/3` — a positive
shift, so a negative scroll does not produce a negative range shift for
the height-dimension tool, contrary to the claim. -/
theorem C2_counterexample :
    yshift (click (make_plot .height)) (-200) = 1 / 3 ∧
    ¬ yshift (click (make_plot .height)) (-200) < 0 := by
  norm_num [yshift, scroll, click, make_plot]

/-- C2 amended: while the tool is active and the configured axis has
positive span, the range shift is strictly monotone in the scroll delta
and matches the scroll's sign for the width-dimension tool (negative
scroll → negative shift, positive scroll → positive shift); for the
height-dimension tool the sign is inverted (negative scroll → positive
shift, positive scroll → negative shift) and the shift is strictly
antitone in the scroll delta. -/
theorem C2_shift_sign_monotone (s : PlotState) (d d2 : ℚ)
    (hact : s.active = true) :
    (s.dimension = .width → 0 < s.x_range.end_ - s.x_range.start →
      (d < 0 → xshift s d < 0) ∧ (0 < d → 0 < xshift s d) ∧
      (d < d2 → xshift s d < xshift s d2)) ∧
    (s.dimension = .height → 0 < s.y_range.end_ - s.y_range.start →
      (d < 0 → 0 < yshift s d) ∧ (0 < d → yshift s d < 0) ∧
      (d < d2 → yshift s d2 < yshift s d)) := by
  constructor
  · intro hdim hspan
    rw [xshift_eq s d hact hdim, xshift_eq s d2 hact hdim]
    refine ⟨fun hd => ?_, fun hd => ?_, fun hd => ?_⟩ <;> nlinarith
  · intro hdim hspan
    rw [yshift_eq s d hact hdim, yshift_eq s d2 hact hdim]
    refine ⟨fun hd => ?_, fun hd => ?_, fun hd => ?_⟩ <;> nlinarith

/-- C2 amended witness: width tool activated on the `_make_plot` ranges,
scroll delta `-200` yields a negative shift. -/
theorem C2_witness :
    xshift (click (make_plot .width)) (-200) < 0 :=
  ((C2_shift_sign_monotone (click (make_plot .width)) (-200) 400 rfl).1 rfl
    (by norm_num [click, make_plot])).1 (by norm_num)

/-- C3 counterexample: the height scenarios are not the width scenarios
with x and y merely swapped: after activating the height tool,
`scroll(-200)` leaves the y-range at `(1/3, 4/3)`, so the claimed
`start < 0` and `end < 1` both fail. -/
theorem C3_counterexample :
    (scroll (click (make_plot .height)) (-200)).1.y_range = ⟨1 / 3, 4 / 3⟩ ∧
    ¬ (scroll (click (make_plot .height)) (-200)).1.y_range.start < 0 ∧
    ¬ (scroll (click (make_plot .height)) (-200)).1.y_range.end_ < 1 := by
  norm_num [scroll, click, make_plot]

/-- C3 amended: the height-dimension scenarios are symmetric to the
width-dimension scenarios with x and y swapped and the scroll sign
inverted: from any height-tool state, swapping the axes and the dimension
and scrolling by `-d` produces exactly the swapped ranges of scrolling the
original state by `d`. -/
theorem C3_height_mirror (s : PlotState) (d : ℚ)
    (hdim : s.dimension = .height) :
    (scroll (swapXY s) (-d)).1.x_range = (scroll s d).1.y_range ∧
    (scroll (swapXY s) (-d)).1.y_range = (scroll s d).1.x_range := by
  cases hact : s.active <;>
    (simp [scroll, swapXY, hdim, hact]; try ring_nf)

/-- C3 amended witness at the activated height plot and `d = -200`. -/
theorem C3_witness :
    (scroll (swapXY (click (make_plot .height))) (-(-200))).1.x_range
      = (scroll (click (make_plot .height)) (-200)).1.y_range :=
  (C3_height_mirror (click (make_plot .height)) (-200) rfl).1

/-- C4: a scroll never changes the axis range orthogonal to the tool's
configured dimension: the width tool leaves the y-range unchanged and the
height tool leaves the x-range unchanged, whether or not the tool is
active. -/
theorem C4_orthogonal_unchanged (s : PlotState) (d : ℚ) :
    (s.dimension = .width → (scroll s d).1.y_range = s.y_range) ∧
    (s.dimension = .height → (scroll s d).1.x_range = s.x_range) := by
  cases hact : s.active <;> constructor <;> intro hdim <;>
    simp [scroll, hact, hdim]

/-- C4 witness: width tool, activated, `scroll(-200)` leaves the y-range
at its prior value. -/
theorem C4_witness :
    (scroll (click (make_plot .width)) (-200)).1.y_range
      = (click (make_plot .width)).y_range :=
  (C4_orthogonal_unchanged (click (make_plot .width)) (-200)).1 rfl

/-- C5: width tool starting from `(0,1)/(0,1)`: after activation,
`scroll(-200)` gives x-range start `< 0` and end `< 1` with the y-range
exactly `(0, 1)`; the subsequent `scroll(400)` gives x-range start `> 0`
and end `> 1` with the y-range still exactly `(0, 1)`. -/
theorem C5_xwheel_pan_scenario :
    ((scroll (click (make_plot .width)) (-200)).1.x_range.start < 0 ∧
     (scroll (click (make_plot .width)) (-200)).1.x_range.end_ < 1 ∧
     (scroll (click (make_plot .width)) (-200)).1.y_range = ⟨0, 1⟩) ∧
    ((scroll (scroll (click (make_plot .width)) (-200)).1 400).1.x_range.start > 0 ∧
     (scroll (scroll (click (make_plot .width)) (-200)).1 400).1.x_range.end_ > 1 ∧
     (scroll (scroll (click (make_plot .width)) (-200)).1 400).1.y_range = ⟨0, 1⟩) := by
  norm_num [scroll, click, make_plot]

/-- C6: the tool's active flag is initially false, each click toggles it,
after an even number of clicks (in particular two) the tool is inactive
again, after an odd number it is active, and the button's "active" class
reflects the flag after every click. -/
theorem C6_click_toggle_parity (dim : Dimension) (n : ℕ) :
    (make_plot dim).active = false ∧
    (∀ s : PlotState, (click s).active = !s.active) ∧
    (clickN n (make_plot dim)).active = decide (n % 2 = 1) ∧
    buttonHasActiveClass (clickN n (make_plot dim))
      = (clickN n (make_plot dim)).active := by
  refine ⟨rfl, fun s => rfl, ?_, rfl⟩
  rw [clickN_active]
  simp [make_plot]

/-- C7: every scroll while the tool is active emits exactly one event,
named "rangesupdate", whose bounds equal the x- and y-range values after
the mutation. -/
theorem C7_active_scroll_emits_one_event (s : PlotState) (d : ℚ)
    (hact : s.active = true) :
    (scroll s d).2 =
      [{ event_name := "rangesupdate",
         x0 := (scroll s d).1.x_range.start, x1 := (scroll s d).1.x_range.end_,
         y0 := (scroll s d).1.y_range.start, y1 := (scroll s d).1.y_range.end_ }] := by
  cases hdim : s.dimension <;> simp [scroll, hact, hdim]

/-- C7 witness: width tool activated on `_make_plot`, `scroll(-200)`. -/
theorem C7_witness :
    (scroll (click (make_plot .width)) (-200)).2 =
      [{ event_name := "rangesupdate",
         x0 := (scroll (click (make_plot .width)) (-200)).1.x_range.start,
         x1 := (scroll (click (make_plot .width)) (-200)).1.x_range.end_,
         y0 := (scroll (click (make_plot .width)) (-200)).1.y_range.start,
         y1 := (scroll (click (make_plot .width)) (-200)).1.y_range.end_ }] :=
  C7_active_scroll_emits_one_event (click (make_plot .width)) (-200) rfl

/-- C10: height tool starting from `(0,1)/(0,1)`: after activation,
`scroll(-200)` gives y-range `(1/3, 4/3)` — start `> 0`, end `> 1`, a
positive shift, opposite in sign to the width tool's response to the same
delta — the subsequent `scroll(400)` gives y-range `(-1/3, 2/3)` — start
`< 0`, end `< 1` — the x-range stays exactly `(0, 1)` throughout, and the
first scroll emits one rangesupdate event with `y0 = 1/3 > 0` and
`y1 = 4/3 > 1`. -/
theorem C10_ywheel_pan_scenario :
    ((scroll (click (make_plot .height)) (-200)).1.y_range.start > 0 ∧
     (scroll (click (make_plot .height)) (-200)).1.y_range.end_ > 1 ∧
     (scroll (click (make_plot .height)) (-200)).1.x_range = ⟨0, 1⟩) ∧
    ((scroll (scroll (click (make_plot .height)) (-200)).1 400).1.y_range.start < 0 ∧
     (scroll (scroll (click (make_plot .height)) (-200)).1 400).1.y_range.end_ < 1 ∧
     (scroll (scroll (click (make_plot .height)) (-200)).1 400).1.x_range = ⟨0, 1⟩) ∧
    ((scroll (click (make_plot .height)) (-200)).2 =
       [{ event_name := "rangesupdate", x0 := 0, x1 := 1, y0 := 1 / 3, y1 := 4 / 3 }] ∧
     (1 : ℚ) / 3 > 0 ∧ (4 : ℚ) / 3 > 1) := by
  norm_num [scroll, click, make_plot]

/-! ### The linear color mapper example script (`styling_linear_mappers.py`) -/

/-- A linear color mapper: an ordered palette of colors and a
`[low, high]` domain. -/
structure LinearColorMapper where
  palette : List String
  low : ℤ
  high : ℤ
  deriving Repr, DecidableEq

/-- The dictionary `linear_cmap` returns: a field name together with the
color mapper driving it (its `transform` entry). -/
structure FieldTransform where
  field : String
  transform : LinearColorMapper
  deriving Repr, DecidableEq

/-- `bokeh.transform.linear_cmap(field_name, palette, low, high)`. -/
def linear_cmap (field_name : String) (palette : List String)
    (low high : ℤ) : FieldTransform :=
  { field := field_name,
    transform := { palette := palette, low := low, high := high } }

/-- The `Spectral6` palette of `bokeh.palettes`. -/
def Spectral6 : List String :=
  ["#3288bd", "#99d594", "#e6f598", "#fee08b", "#fc8d59", "#d53e4f"]

/-- The script's data column `y = [1,2,3,4,5,7,8,9,10]` (the `x` column is
identical). -/
def y : List ℤ := [1, 2, 3, 4, 5, 7, 8, 9, 10]

/-- Python's builtin `min` over a list; `none` models the error Python
raises on an empty list. -/
def pyMin (l : List ℤ) : Option ℤ := l.min?

/-- Python's builtin `max` over a list; `none` models the error Python
raises on an empty list. -/
def pyMax (l : List ℤ) : Option ℤ := l.max?

/-- The script's mapper:
`linear_cmap(field_name='y', palette=Spectral6, low=min(y), high=max(y))`.
The defaults after `getD` are never used: the script's list is nonempty. -/
def mapper : FieldTransform :=
  linear_cmap "y" Spectral6 ((pyMin y).getD 0) ((pyMax y).getD 0)

/-- Modelled from the spec: the `LinearColorMapper` value-to-color
application is framework code not in the repository. Spec §3: "a function
from a numeric field value to a color, parameterized by a palette (ordered
sequence of colors), and a `[low, high]` domain clamped/interpolated
linearly; values outside range clamp to the palette's end colors." -/
def applyLinearMapper (m : LinearColorMapper) (v : ℤ) : String :=
  if v < m.low then m.palette.headD ""
  else if m.high ≤ v then m.palette.getLastD ""
  else m.palette.getD (((v - m.low) * m.palette.length / (m.high - m.low)).toNat) ""

/-- The scatter glyph's encodings, as constructed by
`p.circle(x='x', y='y', line_color=mapper, color=mapper, fill_alpha=1,
size=12, source=source)`: the `color` argument sets the fill color
encoding and the explicit `line_color` argument sets the line color
encoding. -/
structure CircleGlyph where
  x : String
  y : String
  line_color : FieldTransform
  fill_color : FieldTransform
  fill_alpha : ℚ
  size : ℚ
  deriving Repr, DecidableEq

/-- The glyph the script renders. -/
def circle_glyph : CircleGlyph :=
  { x := "x", y := "y", line_color := mapper, fill_color := mapper,
    fill_alpha := 1, size := 12 }

/-- `ColorBar(color_mapper=..., width=8)`. -/
structure ColorBar where
  color_mapper : LinearColorMapper
  width : ℤ
  deriving Repr, DecidableEq

/-- The script's color bar:
`ColorBar(color_mapper=mapper['transform'], width=8)`. -/
def color_bar : ColorBar :=
  { color_mapper := mapper.transform, width := 8 }

/-- C8: the mapper's domain is the min/max of the mapped data:
`low = min(y) = 1`, `high = max(y) = 10`, hence `low ≤ high`, and every
data value lies in `[low, high]`. -/
theorem C8_mapper_domain_minmax :
    pyMin y = some 1 ∧ pyMax y = some 10 ∧
    mapper.transform.low = 1 ∧ mapper.transform.high = 10 ∧
    mapper.transform.low ≤ mapper.transform.high ∧
    (y.all fun v =>
      decide (mapper.transform.low ≤ v ∧ v ≤ mapper.transform.high)) = true := by
  decide

/-- C9: one and the same `linear_cmap` transform fills all three color
roles: it is the glyph's line color encoding, the glyph's fill color
encoding, and — through its `transform` component — the mapper driving the
color bar; hence every data value receives the same line and fill color. -/
theorem C9_same_transform_three_roles :
    circle_glyph.line_color = mapper ∧
    circle_glyph.fill_color = mapper ∧
    color_bar.color_mapper = mapper.transform ∧
    ∀ v : ℤ, applyLinearMapper circle_glyph.line_color.transform v
           = applyLinearMapper circle_glyph.fill_color.transform v :=
  ⟨rfl, rfl, rfl, fun _ => rfl⟩

end Bokeh
